import Mathlib

/-!
Verification of the Resilient Aggregation & Schema Reconciliation layer of the
Mpesa expense-tracker backend.

The embedding models Python row values as rationals, strings or null
(`Value`), rows as association lists (`Row`), the remote-store gateway as a
query function `String → Except String (List Row)` (read-only queries) plus a
state-threading `exec` for DDL/DML, and every fallible Python operation as an
`Except String` computation, so that raised exceptions and their message
texts are explicit values.  Python numbers are modelled as rationals; the
claims under study never depend on binary floating-point rounding.

Sources embedded:
  - backend/config/pesadb_fallbacks.py  (count_rows_safe, sum_safe, avg_safe,
    aggregate_safe, _calculate_aggregate, _evaluate_having)
  - backend/services/database_initializer.py  (table_exists,
    check_users_table_schema, migrate_users_table, create_tables_inline,
    seed_default_categories, verify_database, create_default_user,
    initialize_database)
  - backend/services/pesadb_service.py (is_table_not_found_error,
    get_user_count)
-/

namespace Pesa

/-- Python row values: numbers (int/float unified as rationals), strings, or
`None`. -/
inductive Value where
  | num (q : ℚ)
  | str (s : String)
  | null
deriving DecidableEq, Repr

/-- A gateway row: an insertion-ordered association list, modelling a Python
dict (first binding of a key is the authoritative one; `rowSet` overwrites in
place like dict assignment). -/
abbrev Row := List (String × Value)

/-- `needle.isPrefixOf hay` on character lists. -/
def isPrefixOfCh : List Char → List Char → Bool
  | [], _ => true
  | _ :: _, [] => false
  | a :: as, b :: bs => a == b && isPrefixOfCh as bs

/-- Substring test on character lists (Python `needle in hay`). -/
def containsSubCh (needle : List Char) : List Char → Bool
  | [] => needle.isEmpty
  | c :: t => isPrefixOfCh needle (c :: t) || containsSubCh needle t

/-- Python `needle in hay` on strings. -/
def strContains (hay needle : String) : Bool := containsSubCh needle.data hay.data

/-- Python `str.lower()` (ASCII-sufficient for all texts in this code base). -/
def lowerStr (s : String) : String := ⟨s.data.map Char.toLower⟩

/-- Python `str.upper()`. -/
def upperStr (s : String) : String := ⟨s.data.map Char.toUpper⟩

/-- Python whitespace for `str.strip()` / `str.split()` / `\s`. -/
def isSpaceCh (c : Char) : Bool :=
  c == ' ' || c == '\t' || c == '\n' || c == '\r' || c == '\x0b' || c == '\x0c'

/-- Python `str.strip()`. -/
def pyStrip (s : String) : String :=
  ⟨((s.data.dropWhile isSpaceCh).reverse.dropWhile isSpaceCh).reverse⟩

/-- Auxiliary for `pySplitWs`: accumulate the current word. -/
def splitWsAux : List Char → List Char → List String
  | acc, [] => if acc.isEmpty then [] else [⟨acc.reverse⟩]
  | acc, c :: t =>
    if isSpaceCh c then
      if acc.isEmpty then splitWsAux [] t else ⟨acc.reverse⟩ :: splitWsAux [] t
    else splitWsAux (c :: acc) t

/-- Python `str.split()` with no argument: split on whitespace runs, dropping
empty fields. -/
def pySplitWs (s : String) : List String := splitWsAux [] s.data

/-- `" ".join(sql.split())` — whitespace normalization used by
`aggregate_safe` on its generated SQL. -/
def normWs (s : String) : String := String.intercalate " " (pySplitWs s)

/-- Python dict lookup `row.get(k)` returning `None` for a missing key is
`(rowGet? r k).getD .null`; the bare `Option` form distinguishes a missing key
(for `row[k]`, which raises `KeyError`). -/
def rowGet? : Row → String → Option Value
  | [], _ => none
  | p :: t, k => if p.1 == k then some p.2 else rowGet? t k

/-- Python `row.get(k)` (default `None`). -/
def rowGetD (r : Row) (k : String) : Value := (rowGet? r k).getD Value.null

/-- Python dict assignment `row[k] = v`: overwrite the (first) binding in
place, else append. -/
def rowSet : Row → String → Value → Row
  | [], k, v => [(k, v)]
  | p :: t, k, v => if p.1 == k then (k, v) :: t else p :: rowSet t k v

/-- Python truthiness of a row value (`0`, `0.0`, `""` and `None` are falsy). -/
def pyTruthy : Value → Bool
  | .num q => q != 0
  | .str s => s != ""
  | .null => false

/-- Python `a or b` on row values. -/
def pyOr (a b : Value) : Value := if pyTruthy a then a else b

/-- Digits to a natural number. -/
def natOfDigits (ds : List Char) : Nat :=
  ds.foldl (fun acc c => acc * 10 + (c.toNat - '0'.toNat)) 0

/-- Decimal literal `intpart[.fracpart]` as a rational:
`(ip * 10^|fp| + fp) / 10^|fp|`. -/
def ratOfDecimal (ip fp : List Char) : ℚ :=
  mkRat (natOfDigits ip * 10 ^ fp.length + natOfDigits fp : Int) (10 ^ fp.length)

/-- Parse an optionally signed decimal numeral (the fragment of Python's
`float()` grammar exercised by this code base; exponents/inf/nan are not fed
to it anywhere in the embedded paths). -/
def parseDecimal (cs : List Char) : Option ℚ :=
  let (sign, rest) :=
    match cs with
    | '-' :: t => ((-1 : ℚ), t)
    | '+' :: t => ((1 : ℚ), t)
    | t => ((1 : ℚ), t)
  let ip := rest.takeWhile Char.isDigit
  let r1 := rest.dropWhile Char.isDigit
  match r1 with
  | [] => if ip.isEmpty then none else some (sign * ratOfDecimal ip [])
  | '.' :: r2 =>
    let fp := r2.takeWhile Char.isDigit
    let r3 := r2.dropWhile Char.isDigit
    if r3.isEmpty && !(ip.isEmpty && fp.isEmpty) then some (sign * ratOfDecimal ip fp)
    else none
  | _ => none

/-- Python `float(v)` on a row value; raises (as `.error`) on non-numeric
strings and on `None`. -/
def pyFloatE : Value → Except String ℚ
  | .num q => .ok q
  | .str s =>
    match parseDecimal (pyStrip s).data with
    | some q => .ok q
    | none => .error ("could not convert string to float: " ++ s)
  | .null => .error "float argument must be a string or a real number, not nonetype"

/-- Truncation toward zero, as Python `int()` on a float (T-division of the
numerator by the denominator). -/
def truncRat (q : ℚ) : Int := q.num.tdiv q.den

/-- Parse an optionally signed integer numeral (Python `int(str)`). -/
def parseIntStr (cs : List Char) : Option Int :=
  let (sign, rest) :=
    match cs with
    | '-' :: t => ((-1 : Int), t)
    | '+' :: t => ((1 : Int), t)
    | t => ((1 : Int), t)
  if rest.isEmpty || !(rest.all Char.isDigit) then none
  else some (sign * (natOfDigits rest : Int))

/-- Python `int(v)` on a row value. -/
def pyIntE : Value → Except String Int
  | .num q => .ok (truncRat q)
  | .str s =>
    match parseIntStr (pyStrip s).data with
    | some n => .ok n
    | none => .error ("invalid literal for int with base 10: " ++ s)
  | .null => .error "int argument must be a string or a real number, not nonetype"

/-! ## HavingEvaluator: `_evaluate_having` (pesadb_fallbacks.py lines 468-506) -/

/-- `\w` of the source regex (ASCII fragment; every alias this code generates
is ASCII). -/
def isWordCh (c : Char) : Bool := c.isAlphanum || c == '_'

/-- The operator character class `[><=!]` of the source regex. -/
def isOpCh (c : Char) : Bool := c == '>' || c == '<' || c == '=' || c == '!'

/-- The source's `re.match(r'(\w+)\s*([><=!]+)\s*(\d+(?:\.\d+)?)', having.strip())`.
`re.match` anchors only at the start: trailing text after the number is
ignored.  The three character classes are pairwise disjoint, so greedy
maximal-munch is exact regex semantics here. -/
def parseHaving (having : String) : Option (String × String × ℚ) :=
  let s := (pyStrip having).data
  let w := s.takeWhile isWordCh
  if w.isEmpty then none else
  let s1 := (s.dropWhile isWordCh).dropWhile isSpaceCh
  let op := s1.takeWhile isOpCh
  if op.isEmpty then none else
  let s2 := (s1.dropWhile isOpCh).dropWhile isSpaceCh
  let ip := s2.takeWhile Char.isDigit
  if ip.isEmpty then none else
  let s3 := s2.dropWhile Char.isDigit
  let fp : List Char :=
    match s3 with
    | '.' :: r =>
      let f := r.takeWhile Char.isDigit
      if f.isEmpty then [] else f
    | _ => []
  some (⟨w⟩, ⟨op⟩, ratOfDecimal ip fp)

/-- `_evaluate_having`: parse a single `<alias> <op> <number>` comparison from
the front of the text; on no match return `True`; `col_val = row.get(col, 0)`;
a `float()` failure (non-numeric value) returns `True` via the bare `except`;
an operator matched by the regex but not handled by a branch falls through to
the final `return True`. -/
def evalHaving (having : String) (row : Row) : Bool :=
  match parseHaving having with
  | none => true
  | some (col, op, val) =>
    let colRaw := (rowGet? row col).getD (Value.num 0)
    let colValE : Except String ℚ :=
      match colRaw with
      | .null => .ok 0
      | v => pyFloatE v
    match colValE with
    | .error _ => true
    | .ok cv =>
      if op == ">" then decide (cv > val)
      else if op == ">=" then decide (cv ≥ val)
      else if op == "<" then decide (cv < val)
      else if op == "<=" then decide (cv ≤ val)
      else if op == "=" || op == "==" then decide (cv = val)
      else if op == "!=" || op == "<>" then decide (cv ≠ val)
      else true

/-! ## Fallback-trigger predicates (pesadb_fallbacks.py lines 104-120, 199-219,
256-259, 357-366).  Each is applied to the lowercased error text. -/

/-- `count_rows_safe` lines 107-109:
`('expected identifier near' in msg and 'count' in msg) or 'count' in msg and
'syntax' in msg` (Python precedence: `A or (B and C)`). -/
def isCountError (m : String) : Bool :=
  (strContains m "expected identifier near" && strContains m "count") ||
    (strContains m "count" && strContains m "syntax")

/-- `sum_safe` line 202. -/
def isSumError (m : String) : Bool :=
  strContains m "sum" && (strContains m "syntax" || strContains m "expected identifier")

/-- `avg_safe` line 259. -/
def isAvgError (m : String) : Bool :=
  strContains m "avg" && (strContains m "syntax" || strContains m "expected identifier")

/-- `aggregate_safe` lines 360-363. -/
def isAggregateError (aggs : List (String × String)) (m : String) : Bool :=
  (aggs.any fun fc => strContains m (lowerStr fc.1)) &&
    (strContains m "syntax" || strContains m "expected identifier")

/-! ## count_rows_safe (lines 28-157) -/

/-- A gateway query function: SQL text in, rows or an error message out.  The
aggregation functions only ever read, so queries are modelled as pure. -/
abbrev QFn := String → Except String (List Row)

/-- `where_clause = f"WHERE {where}" if where else ""`. -/
def whereClause (w : String) : String := if w == "" then "" else "WHERE " ++ w

/-- The native COUNT statement of `count_rows_safe` (line 74). -/
def countNativeSql (table w : String) : String :=
  pyStrip ("SELECT COUNT(*) as count FROM " ++ table ++ " " ++ whereClause w)

/-- The filtered fallback fetch of `count_rows_safe` (line 127). -/
def countFetchSql (table w : String) : String :=
  pyStrip ("SELECT * FROM " ++ table ++ " " ++ whereClause w)

/-- The last-resort unfiltered fetch of `count_rows_safe` (line 144). -/
def countBareSql (table : String) : String := pyStrip ("SELECT * FROM " ++ table)

/-- Parsing of the native COUNT result (lines 77-98): try key `count`, then
`COUNT(*)`, then the first numeric value; otherwise
`raise Exception("COUNT result parsing failed")`.  `int()` of a present value
may itself raise. -/
def parseCountResult : List Row → Except String Int
  | [] => .error "COUNT result parsing failed"
  | row :: _ =>
    match rowGet? row "count" with
    | some v => pyIntE v
    | none =>
      match rowGet? row "COUNT(*)" with
      | some v => pyIntE v
      | none =>
        match row.find? (fun p => match p.2 with | .num _ => true | _ => false) with
        | some p => pyIntE p.2
        | none => .error "COUNT result parsing failed"

/-- The in-memory fallback tiers of `count_rows_safe` (lines 126-157): fetch
with the WHERE clause and count; on failure fetch everything and return the
unfiltered length (lines 147-154 return `len(all_rows)` on both branches); if
that also fails, `return 0` (line 157). -/
def countFallback (table w : String) (q : QFn) : Except String Int :=
  match q (countFetchSql table w) with
  | .ok result => .ok result.length
  | .error _ =>
    match q (countBareSql table) with
    | .ok allRows => .ok allRows.length
    | .error _ => .ok 0

/-- `count_rows_safe`: native COUNT first; on any error whose lowercase text
matches `isCountError`, fall back; otherwise re-raise the original error. -/
def count_rows_safe (table w : String) (q : QFn) : Except String Int :=
  let step1 : Except String Int :=
    match q (countNativeSql table w) with
    | .error e => .error e
    | .ok result => parseCountResult result
  match step1 with
  | .ok n => .ok n
  | .error e =>
    if isCountError (lowerStr e) then countFallback table w q
    else .error e

/-! ## sum_safe (lines 160-219) -/

/-- The native SUM statement (line 188). -/
def sumNativeSql (table column w : String) : String :=
  pyStrip ("SELECT SUM(" ++ column ++ ") as total FROM " ++ table ++ " " ++ whereClause w)

/-- The single-column fetch used by the sum/avg fallbacks (lines 209, 266). -/
def colFetchSql (table column w : String) : String :=
  pyStrip ("SELECT " ++ column ++ " FROM " ++ table ++ " " ++ whereClause w)

/-- The in-memory SUM fallback (lines 208-217): fetch the column, return `0.0`
on no rows, else `sum(float(row[column]) for row in result if
row.get(column) is not None)`.  A failing fetch is not caught and propagates. -/
def sumFallback (table column w : String) (q : QFn) : Except String ℚ :=
  match q (colFetchSql table column w) with
  | .error e => .error e
  | .ok result =>
    if result.isEmpty then .ok 0
    else
      result.foldlM
        (fun acc row =>
          if rowGetD row column == Value.null then pure acc
          else do
            let x ← pyFloatE (rowGetD row column)
            pure (acc + x))
        (0 : ℚ)

/-- `sum_safe`: native SUM first (parsing `total` / `SUM(col)` / `0` through
Python `or`-chains, line 193); fallback on the SUM syntax signature, otherwise
re-raise. -/
def sum_safe (table column w : String) (q : QFn) : Except String ℚ :=
  let step1 : Except String ℚ :=
    match q (sumNativeSql table column w) with
    | .error e => .error e
    | .ok [] => .ok 0
    | .ok (row :: _) =>
      let total := pyOr (pyOr (rowGetD row "total") (rowGetD row ("SUM(" ++ column ++ ")")))
        (Value.num 0)
      pyFloatE total
  match step1 with
  | .ok x => .ok x
  | .error e =>
    if isSumError (lowerStr e) then sumFallback table column w q
    else .error e

/-! ## avg_safe (lines 222-281) -/

/-- The native AVG statement (line 244). -/
def avgNativeSql (table column w : String) : String :=
  pyStrip ("SELECT AVG(" ++ column ++ ") as average FROM " ++ table ++ " " ++ whereClause w)

/-- The in-memory AVG fallback (lines 265-279): fetch the column; `None` on no
rows or no non-null values, else the mean. -/
def avgFallback (table column w : String) (q : QFn) : Except String (Option ℚ) :=
  match q (colFetchSql table column w) with
  | .error e => .error e
  | .ok result =>
    if result.isEmpty then .ok none
    else
      let nonNull := result.filter (fun row => !(rowGetD row column == Value.null))
      match nonNull.mapM (fun row => pyFloatE (rowGetD row column)) with
      | .error e => .error e
      | .ok values =>
        if values.isEmpty then .ok none
        else .ok (some (values.sum / (values.length : ℚ)))

/-- `avg_safe`: native AVG first (line 249 chains `row.get('average') or
row.get('AVG(col)')` with no trailing default, then `if avg is not None`);
fallback on the AVG syntax signature, otherwise re-raise. -/
def avg_safe (table column w : String) (q : QFn) : Except String (Option ℚ) :=
  let step1 : Except String (Option ℚ) :=
    match q (avgNativeSql table column w) with
    | .error e => .error e
    | .ok [] => .ok none
    | .ok (row :: _) =>
      let avgv := pyOr (rowGetD row "average") (rowGetD row ("AVG(" ++ column ++ ")"))
      if avgv == Value.null then .ok none
      else
        match pyFloatE avgv with
        | .error e => .error e
        | .ok x => .ok (some x)
  match step1 with
  | .ok x => .ok x
  | .error e =>
    if isAvgError (lowerStr e) then avgFallback table column w q
    else .error e

/-! ## _calculate_aggregate (lines 436-465) and aggregate_safe (lines 284-433) -/

/-- Python `<` between row values: numbers and strings compare within their
kind; any mixed or `None` comparison raises `TypeError`. -/
def pyLtV : Value → Value → Except String Bool
  | .num a, .num b => .ok (decide (a < b))
  | .str a, .str b => .ok (decide (a < b))
  | _, _ => .error "typeerror: unorderable types"

/-- Python `min(values)` (first wins on ties). -/
def pyMin : List Value → Except String Value
  | [] => .error "min arg is an empty sequence"
  | v :: rest =>
    rest.foldlM (fun acc x => do
      let b ← pyLtV x acc
      pure (if b then x else acc)) v

/-- Python `max(values)` (first wins on ties). -/
def pyMax : List Value → Except String Value
  | [] => .error "max arg is an empty sequence"
  | v :: rest =>
    rest.foldlM (fun acc x => do
      let b ← pyLtV acc x
      pure (if b then x else acc)) v

/-- `_calculate_aggregate(func, col, rows)`.  COUNT of `*` is the row count,
COUNT of a column counts non-null values; for the other functions `col = '*'`
makes `values` the row dicts themselves (SUM then adds `0` per dict, AVG finds
no numeric values, MIN/MAX raise `TypeError`); otherwise `values` is the
non-null column values, empty yielding `None`. -/
def calcAgg (func col : String) (rows : List Row) : Except String Value :=
  let f := upperStr func
  if f == "COUNT" then
    if col == "*" then .ok (.num rows.length)
    else .ok (.num ((rows.filter (fun r => !(rowGetD r col == Value.null))).length))
  else if col == "*" then
    if rows.isEmpty then .ok .null
    else if f == "SUM" then .ok (.num 0)
    else if f == "AVG" then .ok .null
    else if f == "MIN" || f == "MAX" then .error "typeerror: unorderable types"
    else .error ("Unsupported aggregate function: " ++ f)
  else
    let values := rows.filterMap (fun r =>
      match rowGet? r col with
      | some v => if v == Value.null then none else some v
      | none => none)
    if values.isEmpty then .ok .null
    else if f == "SUM" then do
      let ns ← values.mapM pyFloatE
      pure (.num ns.sum)
    else if f == "AVG" then do
      let ns ← values.mapM pyFloatE
      pure (.num (ns.sum / (ns.length : ℚ)))
    else if f == "MIN" then pyMin values
    else if f == "MAX" then pyMax values
    else .error ("Unsupported aggregate function: " ++ f)

/-- Generated alias `{func.lower()}_{col.replace('*', 'all')}` (lines 328, 405,
429). -/
def aliasOf (fc : String × String) : String :=
  lowerStr fc.1 ++ "_" ++ ⟨fc.2.data.foldr (fun c acc => if c == '*' then 'a' :: 'l' :: 'l' :: acc else c :: acc) []⟩

/-- Append a row to its bucket in an insertion-ordered bucket list
(`defaultdict(list)` keyed by the group value, lines 395-398). -/
def bucketAdd (m : List (Value × List Row)) (k : Value) (r : Row) : List (Value × List Row) :=
  match m with
  | [] => [(k, [r])]
  | (k0, rs) :: t => if k0 = k then (k0, rs ++ [r]) :: t else (k0, rs) :: bucketAdd t k r

/-- Partition rows by `row[group_by]` (line 397; a missing key raises
`KeyError`). -/
def groupRows (rows : List Row) (gb : String) : Except String (List (Value × List Row)) :=
  rows.foldlM
    (fun m r =>
      match rowGet? r gb with
      | some k => .ok (bucketAdd m k r)
      | none => .error ("keyerror: " ++ gb))
    []

/-- Build one fallback result row for a group: `{group_by: key}` then one
alias per requested aggregate (lines 402-406). -/
def buildGroupRow (gb : String) (k : Value) (aggs : List (String × String)) (grs : List Row) :
    Except String Row :=
  aggs.foldlM
    (fun r fc => do
      let v ← calcAgg fc.1 fc.2 grs
      pure (rowSet r (aliasOf fc) v))
    (rowSet [] gb k)

/-- The per-group loop of the grouped fallback (lines 400-414): build each
result row, drop it when a non-empty HAVING text evaluates false. -/
def groupLoop (gb : String) (aggs : List (String × String)) (having : String) :
    List (Value × List Row) → List Row → Except String (List Row)
  | [], acc => .ok acc
  | (k, grs) :: t, acc =>
    match buildGroupRow gb k aggs grs with
    | .error e => .error e
    | .ok rrow =>
      if having != "" && !(evalHaving having rrow) then groupLoop gb aggs having t acc
      else groupLoop gb aggs having t (acc ++ [rrow])

/-- Stable insertion into a run sorted by the Python key comparison; `rev`
reverses each comparison (Python `list.sort(key=..., reverse=...)` keeps equal
elements in original order in both directions). -/
def insertSortedM (rev : Bool) (key : Row → Value) (x : Row) :
    List Row → Except String (List Row)
  | [] => .ok [x]
  | y :: t => do
    let b ← if rev then pyLtV (key y) (key x) else pyLtV (key x) (key y)
    if b then .ok (x :: y :: t)
    else do
      let t' ← insertSortedM rev key x t
      .ok (y :: t')

/-- The ORDER BY step of the grouped fallback (lines 417-421): sort by the
first token of the order text, descending when it contains `desc`
(case-insensitive), missing sort values defaulting to `0`; an all-whitespace
order text raises `IndexError` on `split()[0]`.  (A stable insertion sort
stands in for CPython's stable sort; it agrees on every comparable input.) -/
def sortResults (order_by : String) (results : List Row) : Except String (List Row) :=
  match pySplitWs order_by with
  | [] => .error "indexerror: list index out of range"
  | sortCol :: _ =>
    let rev := strContains (lowerStr order_by) "desc"
    let key := fun (x : Row) => (rowGet? x sortCol).getD (Value.num 0)
    results.foldlM (fun acc x => insertSortedM rev key x acc) []

/-- The single ungrouped result row of the fallback (lines 426-433): one
alias per requested aggregate, computed over all fetched rows. -/
def buildUngroupedRow (aggs : List (String × String)) (rows : List Row) :
    Except String Row :=
  aggs.foldlM
    (fun r fc => do
      let v ← calcAgg fc.1 fc.2 rows
      pure (rowSet r (aliasOf fc) v))
    ([] : Row)

/-- The in-memory aggregation over already-fetched rows (lines 392-433):
grouped — partition, aggregate, HAVING-filter, ORDER-BY-sort; ungrouped — one
result row with one alias per aggregate. -/
def aggregateInMemory (rows : List Row) (aggs : List (String × String))
    (group_by : Option String) (having order_by : String) : Except String (List Row) :=
  match group_by with
  | some gb =>
    match groupRows rows gb with
    | .error e => .error e
    | .ok groups =>
      match groupLoop gb aggs having groups [] with
      | .error e => .error e
      | .ok results =>
        if order_by != "" then sortResults order_by results else .ok results
  | none =>
    match buildUngroupedRow aggs rows with
    | .error e => .error e
    | .ok rrow => .ok [rrow]

/-- The native aggregate statement built at lines 325-351 (whitespace
normalized by `" ".join(sql.split())`). -/
def aggNativeSql (table : String) (aggs : List (String × String)) (w : String)
    (group_by : Option String) (having order_by : String) : String :=
  let sel0 := String.intercalate ", "
    (aggs.map fun fc => fc.1 ++ "(" ++ fc.2 ++ ") as " ++ aliasOf fc)
  let sel := match group_by with
    | some gb => gb ++ ", " ++ sel0
    | none => sel0
  let gc := match group_by with
    | some gb => "GROUP BY " ++ gb
    | none => ""
  let hc := if having == "" then "" else "HAVING " ++ having
  let oc := if order_by == "" then "" else "ORDER BY " ++ order_by
  normWs ("SELECT " ++ sel ++ "\nFROM " ++ table ++ "\n" ++ whereClause w ++ "\n" ++
    gc ++ "\n" ++ hc ++ "\n" ++ oc)

/-- The fallback fetch statement (lines 375-386): only the columns needed
(aggregated columns other than `*`, plus the group column), `*` when none.
The source collects them in a Python `set`; the model fixes first-insertion
order (the claims only exercise cases with at most one needed column, where
the orders coincide). -/
def aggFetchSql (table : String) (aggs : List (String × String)) (w : String)
    (group_by : Option String) : String :=
  let cols := aggs.foldl
    (fun acc fc => if fc.2 != "*" && !(acc.contains fc.2) then acc ++ [fc.2] else acc)
    ([] : List String)
  let cols := match group_by with
    | some gb => if !(cols.contains gb) then cols ++ [gb] else cols
    | none => cols
  let sel := if cols.isEmpty then "*" else String.intercalate ", " cols
  pyStrip ("SELECT " ++ sel ++ " FROM " ++ table ++ " " ++ whereClause w)

/-- The fallback tier of `aggregate_safe` (lines 374-433): fetch the needed
columns (`return []` when the fetch yields no rows, lines 389-390; a failing
fetch is uncaught and propagates) and aggregate in memory. -/
def aggFallbackRun (table : String) (aggs : List (String × String)) (w : String)
    (group_by : Option String) (having order_by : String) (q : QFn) :
    Except String (List Row) :=
  match q (aggFetchSql table aggs w group_by) with
  | .error e2 => .error e2
  | .ok rows =>
    if rows.isEmpty then .ok []
    else aggregateInMemory rows aggs group_by having order_by

/-- `aggregate_safe`: native aggregation first; on an error matching
`isAggregateError` run the in-memory fallback; any other error re-raises. -/
def aggregate_safe (table : String) (aggs : List (String × String)) (w : String)
    (group_by : Option String) (having order_by : String) (q : QFn) :
    Except String (List Row) :=
  match q (aggNativeSql table aggs w group_by having order_by) with
  | .ok result => .ok result
  | .error e =>
    if !(isAggregateError aggs (lowerStr e)) then .error e
    else aggFallbackRun table aggs w group_by having order_by q

/-! ## SchemaReconciler: backend/services/database_initializer.py

The remote store is a gateway with a read-only `query` and a state-changing
`exc` (the source's `query_db` / `execute_db`); queries are modelled as pure
functions of the current store state. -/

/-- The gateway collaborator over an abstract store state `σ`. -/
structure Gateway (σ : Type) where
  query : σ → String → Except String (List Row)
  exc : σ → String → σ × Except String Unit

/-- The "table missing" phrases of `table_exists` (lines 60-67). -/
def notFoundPhrases : List String :=
  ["does not exist", "no such table", "table not found", "unknown table",
   "tablenotfound", "not found"]

/-- `table_exists` (lines 48-74): probe `SELECT * FROM t LIMIT 1`; success
means present; a failure matching a "not found" phrase means missing, and any
other failure is conservatively also treated as missing (the source differs
only in the log level, hence the `ite` with two `false` branches). -/
def table_exists {σ : Type} (G : Gateway σ) (s : σ) (name : String) : Bool :=
  match G.query s ("SELECT * FROM " ++ name ++ " LIMIT 1") with
  | .ok _ => true
  | .error e =>
    let msg := lowerStr e
    if notFoundPhrases.any (fun p => strContains msg p) then false else false

/-- Result of `check_users_table_schema` (lines 84-91). -/
structure SchemaCheck where
  existsFlag : Bool
  hasCorrectSchema : Bool
  hasEmail : Bool
  hasPasswordHash : Bool
  isOldSchema : Bool
  needsMigration : Bool
deriving DecidableEq, Repr

/-- `check_users_table_schema` (lines 77-131): each column flag starts `False`
and is set `True` only when the probe query succeeds; a failing probe leaves
it `False` whether or not the error text names the column (the matching text
branch assigns `False` explicitly, the non-matching one keeps the initial
`False`). -/
def check_users_table_schema {σ : Type} (G : Gateway σ) (s : σ) : SchemaCheck :=
  let ex := table_exists G s "users"
  if !ex then
    { existsFlag := false, hasCorrectSchema := false, hasEmail := false,
      hasPasswordHash := false, isOldSchema := false, needsMigration := false }
  else
    let hasEmail :=
      match G.query s "SELECT id, email FROM users LIMIT 1" with
      | .ok _ => true
      | .error e =>
        if strContains (lowerStr e) "email" && strContains (lowerStr e) "not" then false
        else false
    let hasPH :=
      match G.query s "SELECT id, password_hash FROM users LIMIT 1" with
      | .ok _ => true
      | .error e =>
        if strContains (lowerStr e) "password_hash" && strContains (lowerStr e) "not" then false
        else false
    let correct := hasEmail && hasPH
    { existsFlag := true, hasCorrectSchema := correct, hasEmail := hasEmail,
      hasPasswordHash := hasPH, isOldSchema := !correct,
      needsMigration := !correct }

/-- The users CREATE statement used by the migration and the inline schema
(lines 161-168 and 471-478). -/
def usersCreateSql : String :=
  "CREATE TABLE users (\n    id STRING PRIMARY KEY,\n    email STRING,\n    password_hash STRING,\n    name STRING,\n    created_at STRING,\n    preferences STRING\n)"

/-- `migrate_users_table` (lines 134-184): DROP the users table (tolerating
"does not exist"/"not found"), CREATE it fresh, then re-run the schema check;
any other failure returns `False` via the outer `except`. -/
def migrate_users_table {σ : Type} (G : Gateway σ) (s : σ) : σ × Bool :=
  let p1 := G.exc s "DROP TABLE users"
  let dropOk : Bool :=
    match p1.2 with
    | .ok _ => true
    | .error e =>
      strContains (lowerStr e) "does not exist" || strContains (lowerStr e) "not found"
  if !dropOk then (p1.1, false)
  else
    let p2 := G.exc p1.1 usersCreateSql
    match p2.2 with
    | .error _ => (p2.1, false)
    | .ok _ => (p2.1, (check_users_table_schema G p2.1).hasCorrectSchema)

/-- The seven inline CREATE TABLE statements, in dependency order (lines
467-571). -/
def tableStatements : List (String × String) :=
  [("users", usersCreateSql),
   ("categories",
    "CREATE TABLE categories (\n    id STRING PRIMARY KEY,\n    user_id STRING REFERENCES users(id),\n    name STRING,\n    icon STRING,\n    color STRING,\n    keywords STRING,\n    is_default BOOL\n)"),
   ("transactions",
    "CREATE TABLE transactions (\n    id STRING PRIMARY KEY,\n    user_id STRING REFERENCES users(id),\n    amount FLOAT,\n    type STRING,\n    category_id STRING REFERENCES categories(id),\n    description STRING,\n    date STRING,\n    source STRING,\n    mpesa_details STRING,\n    sms_metadata STRING,\n    created_at STRING,\n    transaction_group_id STRING,\n    transaction_role STRING,\n    parent_transaction_id STRING REFERENCES transactions(id)\n)"),
   ("budgets",
    "CREATE TABLE budgets (\n    id STRING PRIMARY KEY,\n    user_id STRING REFERENCES users(id),\n    category_id STRING REFERENCES categories(id),\n    amount FLOAT,\n    period STRING,\n    month INT,\n    year INT,\n    created_at STRING\n)"),
   ("sms_import_logs",
    "CREATE TABLE sms_import_logs (\n    id STRING PRIMARY KEY,\n    user_id STRING REFERENCES users(id),\n    import_session_id STRING,\n    total_messages INT,\n    successful_imports INT,\n    duplicates_found INT,\n    parsing_errors INT,\n    transactions_created STRING,\n    errors STRING,\n    created_at STRING\n)"),
   ("duplicate_logs",
    "CREATE TABLE duplicate_logs (\n    id STRING PRIMARY KEY,\n    user_id STRING REFERENCES users(id),\n    original_transaction_id STRING REFERENCES transactions(id),\n    duplicate_transaction_id STRING REFERENCES transactions(id),\n    message_hash STRING,\n    mpesa_transaction_id STRING,\n    reason STRING,\n    duplicate_reasons STRING,\n    duplicate_confidence FLOAT,\n    similarity_score FLOAT,\n    detected_at STRING,\n    action_taken STRING\n)"),
   ("status_checks",
    "CREATE TABLE status_checks (\n    id STRING PRIMARY KEY,\n    status STRING,\n    timestamp STRING,\n    details STRING\n)")]

/-- The "table already exists" phrases of the per-table CREATE handler (lines
612-616; note `exist` also matches "does not exist"). -/
def alreadyExistsPhrases : List String :=
  ["already exists", "table exists", "duplicate", "exist"]

/-- One step of `create_tables_inline` (lines 573-636): skip if present; else
CREATE and re-check existence, recording an error when the re-check fails
after a reported success; a CREATE error matching an "already exists" phrase
counts as skipped, any other is recorded. -/
def createTableStep {σ : Type} (G : Gateway σ) (st : σ × Nat × Nat × List String)
    (tbl : String × String) : σ × Nat × Nat × List String :=
  let (s, created, skipped, errors) := st
  if table_exists G s tbl.1 then (s, created, skipped + 1, errors)
  else
    let p := G.exc s tbl.2
    match p.2 with
    | .ok _ =>
      if table_exists G p.1 tbl.1 then (p.1, created + 1, skipped, errors)
      else
        (p.1, created, skipped,
          errors ++ ["Table '" ++ tbl.1 ++
            "' creation reported success but verification failed - table does not exist"])
    | .error e =>
      if alreadyExistsPhrases.any (fun ph => strContains (lowerStr e) ph) then
        (p.1, created, skipped + 1, errors)
      else
        (p.1, created, skipped, errors ++ ["Error creating table '" ++ tbl.1 ++ "': " ++ e])

/-- `create_tables_inline` (lines 448-638). -/
def create_tables_inline {σ : Type} (G : Gateway σ) (s : σ) : σ × Nat × Nat × List String :=
  tableStatements.foldl (createTableStep G) (s, 0, 0, [])

/-- `create_tables` (lines 269-445): the repository ships no
`backend/scripts/init_pesadb.sql`, so `load_sql_from_file` raises
`FileNotFoundError` and the function returns the inline fallback's result
(line 380); the locally appended "SQL file not found" error is discarded by
that early return. -/
def create_tables {σ : Type} (G : Gateway σ) (s : σ) : σ × Nat × Nat × List String :=
  create_tables_inline G s

/-- `verify_database` (lines 717-755): every required table must exist. -/
def requiredTables : List String :=
  ["users", "categories", "transactions", "budgets", "sms_import_logs",
   "duplicate_logs", "status_checks"]

/-- `verify_database`. -/
def verify_database {σ : Type} (G : Gateway σ) (s : σ) : Bool :=
  requiredTables.all (fun t => table_exists G s t)

/-- The twelve default reference categories of `seed_default_categories`
(lines 679-692): id, name, icon, color, keywords. -/
def defaultCategories : List (String × String × String × String × String) :=
  [("cat-food", "Food & Dining", "🍔", "#FF6B6B", "[\"food\", \"restaurant\", \"dining\", \"lunch\", \"dinner\", \"breakfast\", \"nyama\", \"choma\"]"),
   ("cat-transport", "Transport", "🚗", "#4ECDC4", "[\"taxi\", \"bus\", \"matatu\", \"uber\", \"fuel\", \"transport\", \"travel\"]"),
   ("cat-shopping", "Shopping", "🛍️", "#95E1D3", "[\"shop\", \"store\", \"mall\", \"clothing\", \"electronics\", \"supermarket\"]"),
   ("cat-bills", "Bills & Utilities", "📱", "#F38181", "[\"bill\", \"electricity\", \"water\", \"internet\", \"phone\", \"utility\", \"kplc\", \"nairobi water\"]"),
   ("cat-entertainment", "Entertainment", "🎬", "#AA96DA", "[\"movie\", \"cinema\", \"game\", \"entertainment\", \"music\", \"showmax\", \"netflix\"]"),
   ("cat-health", "Health & Fitness", "⚕️", "#FCBAD3", "[\"hospital\", \"pharmacy\", \"doctor\", \"medicine\", \"gym\", \"health\", \"clinic\"]"),
   ("cat-education", "Education", "📚", "#A8D8EA", "[\"school\", \"books\", \"tuition\", \"education\", \"course\", \"university\"]"),
   ("cat-airtime", "Airtime & Data", "📞", "#FFFFD2", "[\"airtime\", \"data\", \"bundles\", \"safaricom\", \"airtel\", \"telkom\"]"),
   ("cat-transfers", "Money Transfer", "💸", "#FEC8D8", "[\"transfer\", \"send money\", \"mpesa\", \"paybill\", \"till\"]"),
   ("cat-savings", "Savings & Investments", "💰", "#957DAD", "[\"savings\", \"investment\", \"deposit\", \"savings account\", \"mshwari\", \"kcb mpesa\"]"),
   ("cat-income", "Income", "💵", "#90EE90", "[\"salary\", \"income\", \"payment\", \"received\"]"),
   ("cat-other", "Other", "📌", "#D4A5A5", "[]")]

/-- Python `name.replace("'", "''")` used for SQL safety in the seeding loop. -/
def sqlEscape (s : String) : String :=
  ⟨s.data.foldr (fun c acc => if c == '\x27' then '\x27' :: '\x27' :: acc else c :: acc) []⟩

/-- The INSERT creating the `system` user (lines 665-668; the source's
triple-quoted indentation is normalized to single spaces here, which no
embedded check inspects). -/
def systemUserInsertSql : String :=
  "INSERT INTO users (id, email, password_hash, name, created_at, preferences) VALUES ('system', 'system@internal', 'SYSTEM_ACCOUNT_NO_LOGIN', 'System Account', '2026-01-16T00:00:00Z', '\x7b\"is_system\": true\x7d')"

/-- The per-category INSERT of the seeding loop (lines 699-702, likewise
whitespace-normalized). -/
def categoryInsertSql (c : String × String × String × String × String) : String :=
  "INSERT INTO categories (id, user_id, name, icon, color, keywords, is_default) VALUES ('" ++
    c.1 ++ "', 'system', '" ++ sqlEscape c.2.1 ++ "', '" ++ c.2.2.1 ++ "', '" ++
    c.2.2.2.1 ++ "', '" ++ c.2.2.2.2 ++ "', TRUE)"

/-- `seed_default_categories` (lines 640-715): skip entirely when
`count_rows_safe('categories')` reports existing rows; otherwise ensure the
`system` user exists and insert each reference row independently, counting
successes; every failure path returns `0` through the surrounding `except`
blocks. -/
def seed_default_categories {σ : Type} (G : Gateway σ) (s : σ) : σ × Nat :=
  match count_rows_safe "categories" "" (G.query s) with
  | .error _ => (s, 0)
  | .ok c =>
    if c > 0 then (s, 0)
    else
      match G.query s "SELECT * FROM users WHERE id = 'system' LIMIT 1" with
      | .error _ => (s, 0)
      | .ok sysRows =>
        let p0 : σ × Except String Unit :=
          if sysRows.isEmpty then G.exc s systemUserInsertSql else (s, .ok ())
        match p0.2 with
        | .error _ => (p0.1, 0)
        | .ok _ =>
          defaultCategories.foldl
            (fun (st : σ × Nat) cat =>
              let p := G.exc st.1 (categoryInsertSql cat)
              match p.2 with
              | .ok _ => (p.1, st.2 + 1)
              | .error _ => (p.1, st.2))
            (p0.1, 0)

/-- `is_table_not_found_error` (pesadb_service.py lines 16-21). -/
def is_table_not_found_error (e : String) : Bool :=
  let m := lowerStr e
  (strContains m "table" && strContains m "does not exist") ||
    strContains m "tablenotfound" || strContains m "no such table"

/-- `PesaDBService.get_user_count` (pesadb_service.py lines 29-38):
`count_rows_safe('users')`, with a table-not-found failure mapped to `0`. -/
def get_user_count {σ : Type} (G : Gateway σ) (s : σ) : Except String Int :=
  match count_rows_safe "users" "" (G.query s) with
  | .ok n => .ok n
  | .error e => if is_table_not_found_error e then .ok 0 else .error e

/-- The values `create_default_user` draws from its nondeterministic
collaborators (`uuid4`, `bcrypt`, `utcnow`), passed in explicitly. -/
structure FreshUser where
  id : String
  passwordHash : String
  createdAt : String
deriving Repr

/-- `build_insert('users', user_data)` (pesadb.py lines 349-362) for the
default admin user of lines 789-796. -/
def buildInsertUsers (u : FreshUser) : String :=
  "INSERT INTO users (id, email, password_hash, name, created_at, preferences) VALUES ('" ++
    sqlEscape u.id ++ "', 'admin@example.com', '" ++ sqlEscape u.passwordHash ++
    "', 'Admin User', '" ++ sqlEscape u.createdAt ++
    "', '\x7b\"default_currency\": \"KES\", \"is_default\": true\x7d')"

/-- Result of `create_default_user` (lines 758-815). -/
structure UserResult where
  created : Bool
  message : String
  userId : Option String
deriving Repr

/-- `create_default_user`: skip when `get_user_count` reports an existing
user; otherwise insert the default admin row; every failure is caught and
reported as not-created. -/
def create_default_user {σ : Type} (G : Gateway σ) (s : σ) (fresh : FreshUser) :
    σ × UserResult :=
  match get_user_count G s with
  | .error e => (s, { created := false, message := "Error: " ++ e, userId := none })
  | .ok n =>
    if n > 0 then (s, { created := false, message := "User already exists", userId := none })
    else
      let p := G.exc s (buildInsertUsers fresh)
      match p.2 with
      | .error e => (p.1, { created := false, message := "Error: " ++ e, userId := none })
      | .ok _ =>
        (p.1, { created := true, message := "Default user created successfully",
                userId := some fresh.id })

/-- The report returned by `initialize_database` (lines 831-842). -/
structure InitResult where
  success : Bool
  databaseCreated : Bool
  tablesCreated : Nat
  tablesSkipped : Nat
  categoriesSeeded : Nat
  userCreated : Bool
  verified : Bool
  migrated : Bool
  message : String
  errors : List String
  userId : Option String
deriving Repr

/-- The tail of `initialize_database` after a successful verification (lines
925-963): optional seeding, optional default-user creation, then
`success = True`. -/
def initFinish {σ : Type} (G : Gateway σ) (s : σ) (seedCats createUser : Bool)
    (fresh : FreshUser) (created skipped : Nat) (migrated : Bool)
    (errors : List String) : σ × InitResult :=
  let p4 := if seedCats then seed_default_categories G s else (s, 0)
  let p5 := if createUser then create_default_user G p4.1 fresh
            else (p4.1, { created := false, message := "", userId := none })
  (p5.1,
   { success := true, databaseCreated := true, tablesCreated := created,
     tablesSkipped := skipped, categoriesSeeded := p4.2,
     userCreated := p5.2.created, verified := true, migrated := migrated,
     message := "Database initialized successfully", errors := errors,
     userId := p5.2.userId })

/-- `initialize_database` (lines 818-971): schema check and automatic
migration, table creation, verification with an inline-creation retry when
nothing was created, then best-effort seeding and default-user creation.
`ensure_database_exists` always returns `True` without touching the gateway.
In the model every collaborator failure is an explicit value, so the outer
`except` of the source is unreachable; the run corresponds to the source's
non-raising executions. -/
def initialize_database {σ : Type} (G : Gateway σ) (s : σ)
    (seedCats createUser : Bool) (fresh : FreshUser) : σ × InitResult :=
  let chk := check_users_table_schema G s
  let mig := if chk.needsMigration then migrate_users_table G s else (s, false)
  let errs1 := if chk.needsMigration && !mig.2 then
      ["Users table migration failed - signup/login will not work"] else []
  let ct := create_tables G mig.1
  let v1 := verify_database G ct.1
  if v1 then
    initFinish G ct.1 seedCats createUser fresh ct.2.1 ct.2.2.1 mig.2 (errs1 ++ ct.2.2.2)
  else
    let errs2 := errs1 ++ ct.2.2.2 ++ ["Database verification failed - some tables are missing"]
    if ct.2.1 == 0 then
      let ci := create_tables_inline G ct.1
      let v2 := verify_database G ci.1
      if v2 then
        initFinish G ci.1 seedCats createUser fresh ci.2.1 ci.2.2.1 mig.2 (errs2 ++ ci.2.2.2)
      else
        (ci.1,
         { success := false, databaseCreated := true, tablesCreated := ci.2.1,
           tablesSkipped := ci.2.2.1, categoriesSeeded := 0, userCreated := false,
           verified := false, migrated := mig.2,
           message := "Database verification failed after fallback attempt",
           errors := errs2 ++ ci.2.2.2, userId := none })
    else
      (ct.1,
       { success := false, databaseCreated := true, tablesCreated := ct.2.1,
         tablesSkipped := ct.2.2.1, categoriesSeeded := 0, userCreated := false,
         verified := false, migrated := mig.2,
         message := "Database verification failed - some tables are missing",
         errors := errs2, userId := none })

/-! ## Spec-side characterizations and concrete gateway instances used by the
theorems below. -/

/-- One step of `dedupKeys`: record a row's group value on first occurrence. -/
def dedupStep (gb : String) (acc : List Value) (r : Row) : List Value :=
  match rowGet? r gb with
  | some k => if k ∈ acc then acc else acc ++ [k]
  | none => acc

/-- The distinct values of the group column among the rows, in first-occurrence
order (spec: "exactly one result row per distinct value of the group column"). -/
def dedupKeys (gb : String) (rows : List Row) : List Value :=
  rows.foldl (dedupStep gb) []

/-- Each key of `ks` paired with the rows of `rows` carrying it. -/
def canon (gb : String) (rows : List Row) (ks : List Value) : List (Value × List Row) :=
  ks.map (fun k => (k, rows.filter (fun r => rowGet? r gb == some k)))

/-- The canonical grouping: each distinct key paired with the rows carrying
it, in first-occurrence order. -/
def groupsSpec (gb : String) (rows : List Row) : List (Value × List Row) :=
  canon gb rows (dedupKeys gb rows)

/-- The pure bucket fold underlying `groupRows` when every row carries the
group key. -/
def groupsPure (gb : String) (rows : List Row) (m : List (Value × List Row)) :
    List (Value × List Row) :=
  rows.foldl (fun m r => bucketAdd m ((rowGet? r gb).getD .null) r) m

/-- A gateway whose native COUNT fails with the unsupported-syntax signature
and whose fallback fetches fail with an unrelated connectivity error. -/
def gCountAllFail : QFn := fun sql =>
  if sql = "SELECT COUNT(*) as count FROM t" then .error "count syntax error"
  else .error "network unreachable"

/-- A gateway whose native COUNT fails with a text containing `count` and
`expected identifier` but not `expected identifier near` and not `syntax`,
and whose fetches succeed with one row. -/
def gCountNoNear : QFn := fun sql =>
  if sql = "SELECT COUNT(*) as count FROM t" then .error "count expected identifier"
  else .ok [[("id", Value.num 1)]]

/-- A gateway failing every query with an unrelated error text. -/
def gPlainFail : QFn := fun _ => .error "weird failure"

/-- A gateway whose native aggregate query fails with the COUNT syntax
signature and whose fallback fetch returns no rows. -/
def gAggEmptyFetch : QFn := fun sql =>
  if sql = aggNativeSql "t" [("COUNT", "*")] "" none "" "" then .error "count syntax error"
  else .ok []

/-- Like `gAggEmptyFetch` but the fallback fetch returns one row. -/
def gAggOneRow : QFn := fun sql =>
  if sql = aggNativeSql "t" [("COUNT", "*")] "" none "" "" then .error "count syntax error"
  else .ok [[("id", Value.num 1)]]

/-- A gateway whose native SUM and AVG queries fail with their syntax
signatures and whose other queries return no rows. -/
def gSumAvgErr : QFn := fun sql =>
  if sql = sumNativeSql "t" "c" "" then .error "sum syntax error"
  else if sql = avgNativeSql "t" "c" "" then .error "avg syntax error"
  else .ok []

/-- Fixed stand-ins for `uuid4`/`bcrypt`/`utcnow` in concrete runs. -/
def fresh0 : FreshUser := { id := "u-1", passwordHash := "h-1", createdAt := "t-1" }

/-- A store in which all seven tables exist with the current users schema and
both reference counts are positive; `exc` records every executed statement,
so an unchanged state is a run that wrote nothing. -/
def gInitialized : Gateway (List String) where
  query := fun _ sql =>
    if sql = "SELECT COUNT(*) as count FROM categories" then .ok [[("count", Value.num 12)]]
    else if sql = "SELECT COUNT(*) as count FROM users" then .ok [[("count", Value.num 1)]]
    else .ok [[("id", Value.str "x")]]
  exc := fun tr stmt => (tr ++ [stmt], .ok ())

/-- A store in which every table exists but the email probe of the users
table fails with a connectivity error whose text never names the column;
DDL/DML succeeds and is recorded. -/
def gProbeFail : Gateway (List String) where
  query := fun _ sql =>
    if sql = "SELECT id, email FROM users LIMIT 1" then .error "connection refused"
    else if sql = "SELECT COUNT(*) as count FROM categories" then .ok [[("count", Value.num 5)]]
    else if sql = "SELECT COUNT(*) as count FROM users" then .ok [[("count", Value.num 1)]]
    else .ok [[("id", Value.str "x")]]
  exc := fun tr stmt => (tr ++ [stmt], .ok ())

/-- A store in which every table exists and only the password_hash probe of
the users table fails — with a timeout text naming no column — while the
email probe succeeds. -/
def gProbeFail2 : Gateway Unit where
  query := fun _ sql =>
    if sql = "SELECT id, password_hash FROM users LIMIT 1" then .error "request timeout"
    else .ok [[("id", Value.str "x")]]
  exc := fun _ _ => ((), .ok ())

/-- A store in which every table exists, the email probe fails (forcing a
migration attempt) and every DDL statement is refused, so the migration fails
and its failure is recorded in the report's errors. -/
def gMigrateFails : Gateway Unit where
  query := fun _ sql =>
    if sql = "SELECT id, email FROM users LIMIT 1" then .error "boom"
    else if sql = "SELECT COUNT(*) as count FROM categories" then .ok [[("count", Value.num 5)]]
    else if sql = "SELECT COUNT(*) as count FROM users" then .ok [[("count", Value.num 1)]]
    else .ok [[("id", Value.str "x")]]
  exc := fun _ _ => ((), .error "refused by policy")

/-! ## Helper lemmas -/

theorem evalHaving_of_parse_none {h : String} (hp : parseHaving h = none) (row : Row) :
    evalHaving h row = true := by
  unfold evalHaving
  rw [hp]

theorem groupLoop_all_true (gb : String) (aggs : List (String × String)) (h : String)
    (hall : ∀ r, evalHaving h r = true) :
    ∀ (groups : List (Value × List Row)) (acc : List Row),
      groupLoop gb aggs h groups acc = groupLoop gb aggs "" groups acc := by
  intro groups
  induction groups with
  | nil => intro acc; rfl
  | cons kg t ih =>
    intro acc
    obtain ⟨k, grs⟩ := kg
    cases hb : buildGroupRow gb k aggs grs with
    | error e => simp [groupLoop, hb]
    | ok rrow => simp [groupLoop, hb, hall rrow, ih]

/-! ## C2: HAVING shape and compound predicates -/

/-- C2 counterexample: the claim says any compound HAVING text (for instance
`count_all > 2 AND x < 5`) makes the evaluator return true for every group;
in fact `re.match` anchors only at the start, so the leading comparison
`count_all > 2` is parsed and applied — a group with `count_all = 1` is
dropped, not retained. -/
theorem havingCompound_cex :
    evalHaving "count_all > 2 AND x < 5" [("count_all", Value.num 1)] = false := by
  decide

theorem evalHaving_parsed_gt {h col : String} {val : ℚ}
    (hp : parseHaving h = some (col, ">", val)) (row : Row) (q : ℚ)
    (hq : rowGet? row col = some (.num q)) :
    evalHaving h row = decide (q > val) := by
  unfold evalHaving
  rw [hp]
  simp only [hq, Option.getD_some, pyFloatE]
  rfl

/-- C2 amended: a HAVING text with no leading `<alias> <op> <number>`
comparison makes the evaluator return true, so grouped aggregation with such
a text retains all groups unchanged; but the regex matches a prefix, so a
compound predicate such as `count_all > 2 AND x < 5` is evaluated by its
leading comparison (the `AND x < 5` tail is ignored), exactly like the plain
`count_all > 2`, which retains precisely the groups whose `count_all` exceeds
2. -/
theorem having_shape_amended :
    (∀ (h : String) (row : Row), parseHaving h = none → evalHaving h row = true) ∧
    (∀ (row : Row) (q : ℚ), rowGet? row "count_all" = some (.num q) →
      evalHaving "count_all > 2" row = decide (q > 2)) ∧
    (∀ (row : Row) (q : ℚ), rowGet? row "count_all" = some (.num q) →
      evalHaving "count_all > 2 AND x < 5" row = decide (q > 2)) ∧
    (∀ (rows : List Row) (aggs : List (String × String)) (gb h : String),
      parseHaving h = none →
      aggregateInMemory rows aggs (some gb) h "" =
        aggregateInMemory rows aggs (some gb) "" "") := by
  refine ⟨fun h row hp => evalHaving_of_parse_none hp row, ?_, ?_, ?_⟩
  · intro row q hq
    exact evalHaving_parsed_gt (by decide) row q hq
  · intro row q hq
    exact evalHaving_parsed_gt (by decide) row q hq
  · intro rows aggs gb h hp
    unfold aggregateInMemory
    dsimp only
    cases hg : groupRows rows gb with
    | error e => rfl
    | ok groups =>
      dsimp only
      rw [groupLoop_all_true gb aggs h (fun r => evalHaving_of_parse_none hp r) groups []]

/-- C2 witness: concrete groups exercising each conjunct — an unparsable
predicate is kept, `count_all > 2` keeps a group with count 3 and the
compound text behaves like its leading comparison. -/
theorem having_shape_amended_witness :
    evalHaving "a + b > 3" [("count_all", Value.num 1)] = true ∧
    evalHaving "count_all > 2" [("count_all", Value.num 3)] = true ∧
    evalHaving "count_all > 2 AND x < 5" [("count_all", Value.num 3)] = true ∧
    aggregateInMemory [[("g", Value.num 1)]] [("COUNT", "*")] (some "g") "a + b > 3" "" =
      aggregateInMemory [[("g", Value.num 1)]] [("COUNT", "*")] (some "g") "" "" := by
  refine ⟨having_shape_amended.1 _ _ (by decide), ?_, ?_,
    having_shape_amended.2.2.2 _ _ _ _ (by decide)⟩
  · rw [having_shape_amended.2.1 _ 3 (by decide)]
    decide
  · rw [having_shape_amended.2.2.1 _ 3 (by decide)]
    decide

/-! ## C10: totality of the HAVING evaluator -/

/-- C10: the HAVING evaluator is a total boolean function (its codomain in
the embedding is `Bool`, with every potentially raising Python operation
modelled explicitly): an unparsable predicate yields true, an operator
matched by the regex's `[><=!]+` class but handled by no comparison branch
(such as `=>`) yields true, and a non-numeric group value (a `float()`
failure) yields true. -/
theorem having_total :
    (∀ (h : String) (row : Row), parseHaving h = none → evalHaving h row = true) ∧
    (∀ (h : String) (row : Row) (col op : String) (val : ℚ),
      parseHaving h = some (col, op, val) →
      op ≠ ">" → op ≠ ">=" → op ≠ "<" → op ≠ "<=" → op ≠ "=" → op ≠ "==" →
      op ≠ "!=" → op ≠ "<>" →
      evalHaving h row = true) ∧
    (∀ (h : String) (row : Row) (col op : String) (val : ℚ) (s e : String),
      parseHaving h = some (col, op, val) →
      rowGet? row col = some (.str s) →
      pyFloatE (.str s) = .error e →
      evalHaving h row = true) := by
  refine ⟨fun h row hp => evalHaving_of_parse_none hp row, ?_, ?_⟩
  · intro h row col op val hp h1 h2 h3 h4 h5 h6 h7 h8
    unfold evalHaving
    rw [hp]
    simp only [beq_iff_eq, h1, h2, h3, h4, h5, h6, h7, h8, if_false]
    cases hcv : (match (rowGet? row col).getD (Value.num 0) with
      | Value.null => Except.ok (0 : ℚ)
      | v => pyFloatE v) with
    | error e => rfl
    | ok cv => simp [h1, h2, h3, h4, h5, h6, h7, h8]
  · intro h row col op val s e hp hq he
    unfold evalHaving
    rw [hp]
    simp only [hq, Option.getD_some, he]

/-- C10 witness: the three totality behaviors at concrete inputs, including
the regex-matched but unhandled operator `=>` and a non-numeric value. -/
theorem having_total_witness :
    evalHaving "a + b > 3" [] = true ∧
    evalHaving "x => 3" [("x", Value.num 9)] = true ∧
    evalHaving "x > 3" [("x", Value.str "abc")] = true := by
  refine ⟨having_total.1 _ _ (by decide), ?_, ?_⟩
  · exact having_total.2.1 _ _ "x" "=>" 3 (by decide) (by decide) (by decide) (by decide)
      (by decide) (by decide) (by decide) (by decide) (by decide)
  · exact having_total.2.2 _ _ "x" ">" 3 "abc"
      "could not convert string to float: abc" (by decide) (by decide) (by rfl)

theorem rowGet?_rowSet (r : Row) (k k' : String) (v : Value) :
    rowGet? (rowSet r k v) k' = if k' = k then some v else rowGet? r k' := by
  induction r with
  | nil =>
    by_cases h : k' = k
    · subst h; simp [rowSet, rowGet?]
    · have h' : k ≠ k' := Ne.symm h
      simp [rowSet, rowGet?, beq_iff_eq, h, h']
  | cons p t ih =>
    by_cases hpk : p.1 = k
    · subst hpk
      by_cases h : k' = p.1
      · subst h; simp [rowSet, rowGet?]
      · have h' : p.1 ≠ k' := Ne.symm h
        simp [rowSet, rowGet?, beq_iff_eq, h, h']
    · have hb : (p.1 == k) = false := by simp [beq_iff_eq, hpk]
      by_cases h : p.1 = k'
      · have hkk : ¬k' = k := fun hh => hpk (h.trans hh)
        simp [rowSet, rowGet?, hb, beq_iff_eq, h, hkk]
      · simp [rowSet, rowGet?, hb, beq_iff_eq, h, ih]

theorem buildRow_aliases (rows : List Row) :
    ∀ (aggs : List (String × String)) (r0 r : Row),
      aggs.foldlM
        (fun r fc => do
          let v ← calcAgg fc.1 fc.2 rows
          pure (rowSet r (aliasOf fc) v)) r0 = .ok r →
      (∀ fc ∈ aggs, (rowGet? r (aliasOf fc)).isSome) ∧
        (∀ k, (rowGet? r0 k).isSome → (rowGet? r k).isSome) := by
  intro aggs
  induction aggs with
  | nil =>
    intro r0 r hr
    simp only [List.foldlM_nil] at hr
    cases hr
    exact ⟨by simp, fun k h => h⟩
  | cons fc t ih =>
    intro r0 r hr
    rw [List.foldlM_cons] at hr
    cases hv : calcAgg fc.1 fc.2 rows with
    | error e => rw [hv] at hr; cases hr
    | ok v =>
      rw [hv] at hr
      have hr' : t.foldlM
          (fun r fc => do
            let v ← calcAgg fc.1 fc.2 rows
            pure (rowSet r (aliasOf fc) v)) (rowSet r0 (aliasOf fc) v) = .ok r := hr
      obtain ⟨h1, h2⟩ := ih (rowSet r0 (aliasOf fc) v) r hr'
      refine ⟨?_, fun k hk => h2 k ?_⟩
      · intro fc' hfc'
        rcases List.mem_cons.mp hfc' with h | h
        · subst h
          apply h2
          rw [rowGet?_rowSet]
          simp
        · exact h1 fc' h
      · rw [rowGet?_rowSet]
        split <;> simp [hk]

/-! ## C3: shape of the ungrouped aggregate result -/

/-- C3 counterexample: the claim says an ungrouped `aggregate` call always
returns exactly one row-map, including in the fallback path when the fetch
yields zero rows; in fact lines 389-390 return an empty list there — the
result has zero rows, not one. -/
theorem aggregateEmpty_cex :
    aggregate_safe "t" [("COUNT", "*")] "" none "" "" gAggEmptyFetch = .ok [] := by
  rfl

/-- C3 amended: on the fallback path an ungrouped `aggregate` returns exactly
one row-map — carrying one entry per requested aggregate under its generated
alias — whenever the fallback fetch yields at least one row (and the
aggregate computation itself succeeds); when the fetch yields zero rows it
returns an empty list instead. -/
theorem aggregate_ungrouped_amended :
    (∀ (q : QFn) (t : String) (aggs : List (String × String)) (w e : String)
        (rows : List Row) (r : Row),
      q (aggNativeSql t aggs w none "" "") = .error e →
      isAggregateError aggs (lowerStr e) = true →
      q (aggFetchSql t aggs w none) = .ok rows →
      rows ≠ [] →
      buildUngroupedRow aggs rows = .ok r →
      aggregate_safe t aggs w none "" "" q = .ok [r] ∧
        ∀ fc ∈ aggs, (rowGet? r (aliasOf fc)).isSome) ∧
    (∀ (q : QFn) (t : String) (aggs : List (String × String)) (w e : String),
      q (aggNativeSql t aggs w none "" "") = .error e →
      isAggregateError aggs (lowerStr e) = true →
      q (aggFetchSql t aggs w none) = .ok [] →
      aggregate_safe t aggs w none "" "" q = .ok []) := by
  constructor
  · intro q t aggs w e rows r h1 h2 h3 hne hb
    constructor
    · unfold aggregate_safe
      rw [h1]
      dsimp only
      rw [h2]
      simp only [Bool.not_true, Bool.false_eq_true, if_false]
      unfold aggFallbackRun
      rw [h3]
      dsimp only
      cases rows with
      | nil => exact absurd rfl hne
      | cons r0 rs =>
        simp only [List.isEmpty_cons, Bool.false_eq_true, if_false]
        unfold aggregateInMemory
        dsimp only
        rw [hb]
    · exact (buildRow_aliases rows aggs [] r hb).1
  · intro q t aggs w e h1 h2 h3
    unfold aggregate_safe
    rw [h1]
    dsimp only
    rw [h2]
    unfold aggFallbackRun
    rw [h3]
    rfl

/-- C3 witness: a COUNT-syntax failure with a one-row fetch yields exactly
one result row holding the `count_all` alias; the same failure with an empty
fetch yields the empty result. -/
theorem aggregate_ungrouped_amended_witness :
    aggregate_safe "t" [("COUNT", "*")] "" none "" "" gAggOneRow =
      .ok [[("count_all", Value.num 1)]] ∧
    (rowGet? [("count_all", Value.num 1)] (aliasOf ("COUNT", "*"))).isSome = true ∧
    aggregate_safe "t" [("COUNT", "*")] "" none "" "" gAggEmptyFetch = .ok [] := by
  refine ⟨?_, ?_, ?_⟩
  · exact (aggregate_ungrouped_amended.1 gAggOneRow "t" [("COUNT", "*")] ""
      "count syntax error" [[("id", Value.num 1)]] [("count_all", Value.num 1)]
      rfl (by decide) rfl (by decide) (by rfl)).1
  · have := (aggregate_ungrouped_amended.1 gAggOneRow "t" [("COUNT", "*")] ""
      "count syntax error" [[("id", Value.num 1)]] [("count_all", Value.num 1)]
      rfl (by decide) rfl (by decide) (by rfl)).2
    simpa using this ("COUNT", "*") (by simp)
  · exact aggregate_ungrouped_amended.2 gAggEmptyFetch "t" [("COUNT", "*")] ""
      "count syntax error" rfl (by decide) rfl

/-! ## C7: grouping lemmas -/

theorem groupRows_eq_pure (gb : String) :
    ∀ (rows : List Row) (m : List (Value × List Row)),
      (∀ r ∈ rows, (rowGet? r gb).isSome) →
      rows.foldlM
          (fun m r =>
            match rowGet? r gb with
            | some k => Except.ok (bucketAdd m k r)
            | none => Except.error ("keyerror: " ++ gb)) m =
        (.ok (groupsPure gb rows m) : Except String (List (Value × List Row))) := by
  intro rows
  induction rows with
  | nil => intro m _; rfl
  | cons r t ih =>
    intro m htot
    obtain ⟨k, hk⟩ := Option.isSome_iff_exists.mp (htot r (by simp))
    rw [List.foldlM_cons, hk]
    show t.foldlM _ (bucketAdd m k r) = _
    rw [ih (bucketAdd m k r) (fun x hx => htot x (by simp [hx]))]
    simp [groupsPure, hk]

theorem groupRows_spec (gb : String) (rows : List Row)
    (htot : ∀ r ∈ rows, (rowGet? r gb).isSome) :
    groupRows rows gb = .ok (groupsPure gb rows []) := by
  unfold groupRows
  exact groupRows_eq_pure gb rows [] htot

theorem dedup_foldl_mem (gb : String) :
    ∀ (rows : List Row) (acc : List Value) (k : Value),
      k ∈ rows.foldl (dedupStep gb) acc ↔
        k ∈ acc ∨ ∃ r ∈ rows, rowGet? r gb = some k := by
  intro rows
  induction rows with
  | nil => intro acc k; simp
  | cons r t ih =>
    intro acc k
    rw [List.foldl_cons, ih]
    have hstep : k ∈ dedupStep gb acc r ↔ k ∈ acc ∨ rowGet? r gb = some k := by
      unfold dedupStep
      cases hr : rowGet? r gb with
      | none => simp
      | some k0 =>
        by_cases hmem : k0 ∈ acc
        · simp only [if_pos hmem, Option.some_inj]
          constructor
          · exact fun h => Or.inl h
          · rintro (h | h)
            · exact h
            · rw [← h]; exact hmem
        · simp only [if_neg hmem, List.mem_append, List.mem_singleton, Option.some_inj]
          constructor
          · rintro (h | h)
            · exact Or.inl h
            · exact Or.inr h.symm
          · rintro (h | h)
            · exact Or.inl h
            · exact Or.inr h.symm
    rw [hstep]
    constructor
    · rintro (⟨h | h⟩ | ⟨x, hx, hk⟩)
      · exact Or.inl h
      · exact Or.inr ⟨r, by simp, h⟩
      · exact Or.inr ⟨x, by simp [hx], hk⟩
    · rintro (h | ⟨x, hx, hk⟩)
      · exact Or.inl (Or.inl h)
      · rcases List.mem_cons.mp hx with h | h
        · subst h; exact Or.inl (Or.inr hk)
        · exact Or.inr ⟨x, h, hk⟩

theorem dedup_foldl_nodup (gb : String) :
    ∀ (rows : List Row) (acc : List Value), acc.Nodup →
      (rows.foldl (dedupStep gb) acc).Nodup := by
  intro rows
  induction rows with
  | nil => intro acc h; exact h
  | cons r t ih =>
    intro acc h
    rw [List.foldl_cons]
    refine ih _ ?_
    unfold dedupStep
    cases hr : rowGet? r gb with
    | none => exact h
    | some k0 =>
      by_cases hmem : k0 ∈ acc
      · simpa [if_pos hmem] using h
      · simp [if_neg hmem, List.nodup_append, h, hmem]

theorem dedupKeys_nodup (gb : String) (rows : List Row) : (dedupKeys gb rows).Nodup :=
  dedup_foldl_nodup gb rows [] List.nodup_nil

theorem dedupKeys_mem (gb : String) (rows : List Row) (k : Value) :
    k ∈ dedupKeys gb rows ↔ ∃ r ∈ rows, rowGet? r gb = some k := by
  unfold dedupKeys
  rw [dedup_foldl_mem]
  simp

theorem bucketAdd_not_mem :
    ∀ (m : List (Value × List Row)) (k : Value) (r : Row),
      k ∉ m.map Prod.fst → bucketAdd m k r = m ++ [(k, [r])] := by
  intro m
  induction m with
  | nil => intro k r _; rfl
  | cons p t ih =>
    intro k r h
    simp only [List.map_cons, List.mem_cons] at h
    push_neg at h
    unfold bucketAdd
    rw [if_neg (fun hh => h.1 hh.symm)]  -- wait orientation
    rw [ih k r h.2]
    rfl

theorem canon_snoc_untouched (gb : String) (rows : List Row) (r : Row)
    (ks : List Value) (hk : ∀ k' ∈ ks, ¬(rowGet? r gb == some k') = true) :
    canon gb (rows ++ [r]) ks = canon gb rows ks := by
  unfold canon
  refine List.map_congr_left ?_
  intro k hkk
  rw [List.filter_append]
  simp [List.filter, hk k hkk]

theorem canon_cons (gb : String) (rows : List Row) (k0 : Value) (t : List Value) :
    canon gb rows (k0 :: t) =
      (k0, rows.filter (fun x => rowGet? x gb == some k0)) :: canon gb rows t := rfl

theorem filter_snoc_hit (gb : String) (rows : List Row) (r : Row) (k : Value)
    (hr : rowGet? r gb = some k) :
    (rows ++ [r]).filter (fun x => rowGet? x gb == some k) =
      rows.filter (fun x => rowGet? x gb == some k) ++ [r] := by
  rw [List.filter_append]
  simp [List.filter, hr]

theorem filter_snoc_miss (gb : String) (rows : List Row) (r : Row) (k k' : Value)
    (hr : rowGet? r gb = some k) (hne : k' ≠ k) :
    (rows ++ [r]).filter (fun x => rowGet? x gb == some k') =
      rows.filter (fun x => rowGet? x gb == some k') := by
  rw [List.filter_append]
  have : ¬(rowGet? r gb == some k') = true := by
    simp only [hr, beq_iff_eq, Option.some_inj]
    exact fun hh => hne hh.symm
  simp [List.filter, this]

theorem bucketAdd_canon_mem (gb : String) (r : Row) (k : Value)
    (hr : rowGet? r gb = some k) :
    ∀ (ks : List Value) (rows : List Row), ks.Nodup → k ∈ ks →
      bucketAdd (canon gb rows ks) k r = canon gb (rows ++ [r]) ks := by
  intro ks
  induction ks with
  | nil => intro rows _ h; cases h
  | cons k0 t ih =>
    intro rows hnd hmem
    rw [canon_cons, canon_cons]
    by_cases h0 : k0 = k
    · subst h0
      have hstep : bucketAdd
          ((k0, rows.filter (fun x => rowGet? x gb == some k0)) :: canon gb rows t) k0 r =
          (k0, rows.filter (fun x => rowGet? x gb == some k0) ++ [r]) :: canon gb rows t := by
        simp [bucketAdd]
      rw [hstep]
      have hnotin : k0 ∉ t := (List.nodup_cons.mp hnd).1
      have htail : ∀ k' ∈ t, ¬(rowGet? r gb == some k') = true := by
        intro k' hk'
        simp only [hr, beq_iff_eq, Option.some_inj]
        intro hh
        exact hnotin (hh ▸ hk')
      rw [canon_snoc_untouched gb rows r t htail, filter_snoc_hit gb rows r k0 hr]
    · simp only [bucketAdd, if_neg h0]
      have hmem' : k ∈ t := by
        rcases List.mem_cons.mp hmem with h | h
        · exact absurd h.symm h0
        · exact h
      rw [ih rows (List.nodup_cons.mp hnd).2 hmem',
        filter_snoc_miss gb rows r k k0 hr h0]

theorem groupsPure_snoc (gb : String) (rows : List Row) (r : Row)
    (m : List (Value × List Row)) :
    groupsPure gb (rows ++ [r]) m =
      bucketAdd (groupsPure gb rows m) ((rowGet? r gb).getD .null) r := by
  unfold groupsPure
  rw [List.foldl_append]
  rfl

theorem dedupKeys_snoc (gb : String) (rows : List Row) (r : Row) :
    dedupKeys gb (rows ++ [r]) = dedupStep gb (dedupKeys gb rows) r := by
  unfold dedupKeys
  rw [List.foldl_append]
  rfl

theorem groupsPure_canon (gb : String) :
    ∀ (rows : List Row), (∀ r ∈ rows, (rowGet? r gb).isSome) →
      groupsPure gb rows [] = groupsSpec gb rows := by
  intro rows
  induction rows using List.reverseRecOn with
  | nil => intro _; rfl
  | append_singleton rows r ih =>
    intro htot
    obtain ⟨k, hk⟩ := Option.isSome_iff_exists.mp (htot r (by simp))
    have htot' : ∀ x ∈ rows, (rowGet? x gb).isSome := fun x hx => htot x (by simp [hx])
    rw [groupsPure_snoc, ih htot', hk]
    unfold groupsSpec
    rw [dedupKeys_snoc]
    unfold dedupStep
    rw [hk]
    dsimp only [Option.getD_some]
    by_cases hmem : k ∈ dedupKeys gb rows
    · rw [if_pos hmem]
      exact bucketAdd_canon_mem gb r k hk (dedupKeys gb rows) rows
        (dedupKeys_nodup gb rows) hmem
    · rw [if_neg hmem]
      have hno : ∀ x ∈ rows, ¬(rowGet? x gb = some k) := by
        intro x hx hs2
        exact hmem ((dedupKeys_mem gb rows k).mpr ⟨x, hx, hs2⟩)
      have hfst : k ∉ (canon gb rows (dedupKeys gb rows)).map Prod.fst := by
        unfold canon
        rw [List.map_map]
        simpa using hmem
      rw [bucketAdd_not_mem _ k r hfst]
      unfold canon
      rw [List.map_append]
      congr 1
      · refine List.map_congr_left ?_
        intro k' hk'
        have hne : k' ≠ k := fun hh => hmem (hh ▸ hk')
        rw [filter_snoc_miss gb rows r k k' hk hne]
      · simp only [List.map_cons, List.map_nil]
        have hemp : rows.filter (fun x => rowGet? x gb == some k) = [] := by
          rw [List.filter_eq_nil_iff]
          intro x hx
          simp only [beq_iff_eq]
          exact fun hh => hno x hx hh
        rw [filter_snoc_hit gb rows r k hk, hemp, List.nil_append]

theorem groupLoop_count (gb : String) :
    ∀ (groups : List (Value × List Row)) (acc : List Row),
      groupLoop gb [("COUNT", "*")] "" groups acc =
        .ok (acc ++ groups.map (fun kg =>
          rowSet (rowSet [] gb kg.1) "count_all" (.num kg.2.length))) := by
  intro groups
  induction groups with
  | nil => intro acc; simp [groupLoop]
  | cons kg t ih =>
    intro acc
    obtain ⟨k, grs⟩ := kg
    have hb : buildGroupRow gb k [("COUNT", "*")] grs =
        .ok (rowSet (rowSet [] gb k) "count_all" (.num grs.length)) := rfl
    simp only [groupLoop, hb]
    rw [if_neg (by simp)]
    rw [ih]
    simp

theorem rowSet_pair (gb : String) (hgb : gb ≠ "count_all") (k v : Value) :
    rowSet (rowSet [] gb k) "count_all" v = [(gb, k), ("count_all", v)] := by
  have h1 : rowSet ([] : Row) gb k = [(gb, k)] := rfl
  rw [h1]
  unfold rowSet
  rw [if_neg (by simpa [beq_iff_eq] using hgb)]
  rfl

/-! ## C7: grouped fallback produces one row per distinct key with exact counts -/

/-- C7: over any fetched rows all carrying the group column, the grouped
fallback (with no HAVING and no ORDER BY) returns exactly one result row per
distinct group value in first-occurrence order — null group values sharing
one bucket like any other value — and each row's `count_all` equals the
number of input rows whose group value equals that row's key. -/
theorem aggregate_grouped_count (rows : List Row) (gb : String)
    (hgb : gb ≠ "count_all")
    (htot : ∀ r ∈ rows, (rowGet? r gb).isSome) :
    aggregateInMemory rows [("COUNT", "*")] (some gb) "" "" =
      .ok ((dedupKeys gb rows).map (fun k =>
        [(gb, k),
         ("count_all",
          Value.num ((rows.filter (fun r => rowGet? r gb == some k)).length))])) ∧
    ∀ out, aggregateInMemory rows [("COUNT", "*")] (some gb) "" "" = .ok out →
      out.length = (dedupKeys gb rows).length := by
  have hmain : aggregateInMemory rows [("COUNT", "*")] (some gb) "" "" =
      .ok ((dedupKeys gb rows).map (fun k =>
        [(gb, k),
         ("count_all",
          Value.num ((rows.filter (fun r => rowGet? r gb == some k)).length))])) := by
    unfold aggregateInMemory
    dsimp only
    rw [groupRows_spec gb rows htot]
    dsimp only
    rw [groupsPure_canon gb rows htot]
    unfold groupsSpec
    rw [groupLoop_count gb (canon gb rows (dedupKeys gb rows)) []]
    dsimp only
    rw [if_neg (by decide), List.nil_append]
    unfold canon
    rw [List.map_map]
    congr 1
    refine List.map_congr_left ?_
    intro k _
    exact rowSet_pair gb hgb k _
  refine ⟨hmain, ?_⟩
  intro out hout
  rw [hmain] at hout
  cases hout
  simp

/-- C7 witness: three rows over group column `c` with values 1, null, 1
produce exactly two groups — the two ones bucketed together with count 2, and
the null bucket with count 1. -/
theorem aggregate_grouped_count_witness :
    aggregateInMemory [[("c", Value.num 1)], [("c", Value.null)], [("c", Value.num 1)]]
        [("COUNT", "*")] (some "c") "" "" =
      .ok [[("c", Value.num 1), ("count_all", Value.num 2)],
           [("c", Value.null), ("count_all", Value.num 1)]] := by
  rw [(aggregate_grouped_count
    [[("c", Value.num 1)], [("c", Value.null)], [("c", Value.num 1)]] "c"
    (by decide) (by decide)).1]
  rfl

/-! ## C1: error propagation and the zero of the last count tier -/

/-- C1 counterexample: with a COUNT-syntax failure on the native query and an
unrelated connectivity failure (`network unreachable`) on both fallback
fetches, `count_rows_safe` returns 0 — the claim says a failure of the
fallback fetches themselves never yields 0. -/
theorem countZero_cex :
    count_rows_safe "t" "" gCountAllFail = .ok 0 ∧
      gCountAllFail (countFetchSql "t" "") = .error "network unreachable" := by
  constructor
  · rfl
  · rfl

/-- C1 amended: an error on the native COUNT whose lowercase text does not
match the unsupported-syntax signature propagates unchanged; but when the
signature matches and both fallback fetches then fail — whatever their error
texts — `count_rows_safe` returns 0 (source line 157), so 0 does stand in for
a failure of the fallback fetches. -/
theorem count_rows_propagation_amended :
    (∀ (q : QFn) (table w e : String),
      q (countNativeSql table w) = .error e →
      isCountError (lowerStr e) = false →
      count_rows_safe table w q = .error e) ∧
    (∀ (q : QFn) (table w e e2 e3 : String),
      q (countNativeSql table w) = .error e →
      isCountError (lowerStr e) = true →
      q (countFetchSql table w) = .error e2 →
      q (countBareSql table) = .error e3 →
      count_rows_safe table w q = .ok 0) := by
  constructor
  · intro q table w e h1 h2
    unfold count_rows_safe
    rw [h1]
    dsimp only
    rw [h2]
    rfl
  · intro q table w e e2 e3 h1 h2 h3 h4
    unfold count_rows_safe
    rw [h1]
    dsimp only
    rw [h2]
    unfold countFallback
    rw [h3, h4]
    rfl

/-- C1 witness: the propagation conjunct at a gateway failing with an
unrelated text, and the zero conjunct at `gCountAllFail`. -/
theorem count_rows_propagation_amended_witness :
    count_rows_safe "t" "" gPlainFail = .error "weird failure" ∧
    count_rows_safe "t" "" gCountAllFail = .ok 0 := by
  constructor
  · exact count_rows_propagation_amended.1 gPlainFail "t" "" "weird failure" rfl (by decide)
  · exact count_rows_propagation_amended.2 gCountAllFail "t" "" "count syntax error"
      "network unreachable" "network unreachable" rfl (by decide) rfl rfl

/-! ## C4: the exact fallback-trigger rule of the four operations -/

/-- C4 counterexample: the native COUNT fails with `count expected
identifier`, which satisfies the claimed rule (contains the function name and
`expected identifier`) while the fallback fetch would succeed with one row —
yet `count_rows_safe` re-raises, because its source checks `expected
identifier near`, not `expected identifier`. -/
theorem countTrigger_cex :
    count_rows_safe "t" "" gCountNoNear = .error "count expected identifier" ∧
      strContains (lowerStr "count expected identifier") "count" = true ∧
      strContains (lowerStr "count expected identifier") "expected identifier" = true ∧
      gCountNoNear (countFetchSql "t" "") = .ok [[("id", Value.num 1)]] := by
  refine ⟨rfl, by decide, by decide, rfl⟩

theorem isCountError_characterization (m : String) :
    isCountError m =
      (strContains m "count" &&
        (strContains m "syntax" || strContains m "expected identifier near")) := by
  unfold isCountError
  cases h1 : strContains m "expected identifier near" <;>
    cases h2 : strContains m "count" <;>
    cases h3 : strContains m "syntax" <;> rfl

/-- C4 amended: on a native-query error, `sum_over`, `avg_over` and
`aggregate` take the in-memory fallback exactly when the lowercase error text
contains the function name and `syntax` or `expected identifier`, re-raising
otherwise; `count_rows` uses the same shape but with the longer substring
`expected identifier near` in place of `expected identifier`. -/
theorem fallback_trigger_amended :
    (∀ (q : QFn) (table w e : String),
      q (countNativeSql table w) = .error e →
      count_rows_safe table w q =
        (if strContains (lowerStr e) "count" &&
            (strContains (lowerStr e) "syntax" ||
              strContains (lowerStr e) "expected identifier near") then
          countFallback table w q
        else .error e)) ∧
    (∀ (q : QFn) (table col w e : String),
      q (sumNativeSql table col w) = .error e →
      sum_safe table col w q =
        (if strContains (lowerStr e) "sum" &&
            (strContains (lowerStr e) "syntax" ||
              strContains (lowerStr e) "expected identifier") then
          sumFallback table col w q
        else .error e)) ∧
    (∀ (q : QFn) (table col w e : String),
      q (avgNativeSql table col w) = .error e →
      avg_safe table col w q =
        (if strContains (lowerStr e) "avg" &&
            (strContains (lowerStr e) "syntax" ||
              strContains (lowerStr e) "expected identifier") then
          avgFallback table col w q
        else .error e)) ∧
    (∀ (q : QFn) (table : String) (aggs : List (String × String)) (w e : String)
      (gb : Option String) (hv ob : String),
      q (aggNativeSql table aggs w gb hv ob) = .error e →
      aggregate_safe table aggs w gb hv ob q =
        (if (aggs.any fun fc => strContains (lowerStr e) (lowerStr fc.1)) &&
            (strContains (lowerStr e) "syntax" ||
              strContains (lowerStr e) "expected identifier") then
          aggFallbackRun table aggs w gb hv ob q
        else .error e)) := by
  refine ⟨?_, ?_, ?_, ?_⟩
  · intro q table w e h1
    unfold count_rows_safe
    rw [h1]
    dsimp only
    rw [← isCountError_characterization]
  · intro q table col w e h1
    unfold sum_safe
    rw [h1]
    rfl
  · intro q table col w e h1
    unfold avg_safe
    rw [h1]
    rfl
  · intro q table aggs w e gb hv ob h1
    unfold aggregate_safe
    rw [h1]
    dsimp only
    unfold isAggregateError
    cases hc : ((aggs.any fun fc => strContains (lowerStr e) (lowerStr fc.1)) &&
        (strContains (lowerStr e) "syntax" || strContains (lowerStr e) "expected identifier")) <;>
      simp [hc]

/-- C4 witness: each conjunct at a concrete gateway — matching texts take the
fallback, and the count conjunct at the non-matching `gPlainFail` re-raises. -/
theorem fallback_trigger_amended_witness :
    count_rows_safe "t" "" gPlainFail =
      (if strContains (lowerStr "weird failure") "count" &&
          (strContains (lowerStr "weird failure") "syntax" ||
            strContains (lowerStr "weird failure") "expected identifier near") then
        countFallback "t" "" gPlainFail
      else .error "weird failure") ∧
    sum_safe "t" "c" "" gSumAvgErr =
      (if strContains (lowerStr "sum syntax error") "sum" &&
          (strContains (lowerStr "sum syntax error") "syntax" ||
            strContains (lowerStr "sum syntax error") "expected identifier") then
        sumFallback "t" "c" "" gSumAvgErr
      else .error "sum syntax error") ∧
    avg_safe "t" "c" "" gSumAvgErr =
      (if strContains (lowerStr "avg syntax error") "avg" &&
          (strContains (lowerStr "avg syntax error") "syntax" ||
            strContains (lowerStr "avg syntax error") "expected identifier") then
        avgFallback "t" "c" "" gSumAvgErr
      else .error "avg syntax error") ∧
    aggregate_safe "t" [("COUNT", "*")] "" none "" "" gAggEmptyFetch =
      (if ([("COUNT", "*")].any fun fc =>
            strContains (lowerStr "count syntax error") (lowerStr fc.1)) &&
          (strContains (lowerStr "count syntax error") "syntax" ||
            strContains (lowerStr "count syntax error") "expected identifier") then
        aggFallbackRun "t" [("COUNT", "*")] "" none "" "" gAggEmptyFetch
      else .error "count syntax error") := by
  exact ⟨fallback_trigger_amended.1 gPlainFail "t" "" "weird failure" rfl,
    fallback_trigger_amended.2.1 gSumAvgErr "t" "c" "" "sum syntax error" rfl,
    fallback_trigger_amended.2.2.1 gSumAvgErr "t" "c" "" "avg syntax error" rfl,
    fallback_trigger_amended.2.2.2 gAggEmptyFetch "t" [("COUNT", "*")] ""
      "count syntax error" none "" "" rfl⟩

/-! ## C8: empty-result values of sum_over and avg_over -/

/-- C8: with an empty WHERE, a query yielding no rows makes `sum_over` return
exactly 0 and `avg_over` return `None`, on the native path and on the
fallback path alike — so `None` from `avg_over` distinguishes "no rows" from
an average of zero. -/
theorem sum_avg_empty :
    (∀ (q : QFn) (t c : String),
      q (sumNativeSql t c "") = .ok [] → sum_safe t c "" q = .ok 0) ∧
    (∀ (q : QFn) (t c e : String),
      q (sumNativeSql t c "") = .error e →
      isSumError (lowerStr e) = true →
      q (colFetchSql t c "") = .ok [] →
      sum_safe t c "" q = .ok 0) ∧
    (∀ (q : QFn) (t c : String),
      q (avgNativeSql t c "") = .ok [] → avg_safe t c "" q = .ok none) ∧
    (∀ (q : QFn) (t c e : String),
      q (avgNativeSql t c "") = .error e →
      isAvgError (lowerStr e) = true →
      q (colFetchSql t c "") = .ok [] →
      avg_safe t c "" q = .ok none) := by
  refine ⟨?_, ?_, ?_, ?_⟩
  · intro q t c h1
    unfold sum_safe
    rw [h1]
  · intro q t c e h1 h2 h3
    unfold sum_safe
    rw [h1]
    dsimp only
    rw [h2]
    unfold sumFallback
    rw [h3]
    rfl
  · intro q t c h1
    unfold avg_safe
    rw [h1]
  · intro q t c e h1 h2 h3
    unfold avg_safe
    rw [h1]
    dsimp only
    rw [h2]
    unfold avgFallback
    rw [h3]
    rfl

/-- C8 witness: a gateway with no rows on every query, and one failing the
native SUM/AVG with the syntax signature and returning no rows on the column
fetch. -/
theorem sum_avg_empty_witness :
    sum_safe "t" "c" "" (fun _ => .ok []) = .ok 0 ∧
    sum_safe "t" "c" "" gSumAvgErr = .ok 0 ∧
    avg_safe "t" "c" "" (fun _ => .ok []) = .ok none ∧
    avg_safe "t" "c" "" gSumAvgErr = .ok none := by
  exact ⟨sum_avg_empty.1 (fun _ => .ok []) "t" "c" rfl,
    sum_avg_empty.2.1 gSumAvgErr "t" "c" "sum syntax error" rfl (by decide) rfl,
    sum_avg_empty.2.2.1 (fun _ => .ok []) "t" "c" rfl,
    sum_avg_empty.2.2.2 gSumAvgErr "t" "c" "avg syntax error" rfl (by decide) rfl⟩

/-! ## C5: success of initialize_database is exactly the verification flag -/

/-- C5: in every non-raising run (the model makes every collaborator failure
an explicit value, so all runs), the report's `success` equals its `verified`
flag — set if and only if the post-creation verification pass (re-run after
the inline fallback when taken) confirmed all seven required tables — and a
non-empty `errors` list never by itself makes `success` false: the concrete
run on `gMigrateFails` reports recorded errors together with `success`. -/
theorem init_success_iff_verified :
    (∀ {σ : Type} (G : Gateway σ) (s : σ) (a b : Bool) (f : FreshUser),
      (initialize_database G s a b f).2.success =
        (initialize_database G s a b f).2.verified) ∧
    ((initialize_database gMigrateFails () true true fresh0).2.errors ≠ [] ∧
      (initialize_database gMigrateFails () true true fresh0).2.success = true) := by
  constructor
  · intro σ G s a b f
    unfold initialize_database
    dsimp only
    split <;> split <;>
      first
      | rfl
      | (split <;>
          first
          | rfl
          | (split <;> rfl))
  · constructor
    · decide
    · decide

/-! ## C9: any probe failure leaves the column flags false and triggers the
destructive migration -/

/-- C9: when the users table exists and either single-column probe query
fails for any reason whatsoever — the hypotheses place no constraint on the
error text and none on the other probe — the corresponding
`has_email`/`has_password_hash` flag stays false and `needs_migration` is
reported true; concretely, on the `gProbeFail` store (whose email-probe
failure is a connectivity error never naming the column)
`initialize_database` executes exactly the destructive `DROP TABLE users`
followed by the fresh CREATE. -/
theorem probe_failure_forces_migration :
    (∀ {σ : Type} (G : Gateway σ) (s : σ) (e : String),
      table_exists G s "users" = true →
      G.query s "SELECT id, email FROM users LIMIT 1" = .error e →
      (check_users_table_schema G s).hasEmail = false ∧
        (check_users_table_schema G s).needsMigration = true) ∧
    (∀ {σ : Type} (G : Gateway σ) (s : σ) (e : String),
      table_exists G s "users" = true →
      G.query s "SELECT id, password_hash FROM users LIMIT 1" = .error e →
      (check_users_table_schema G s).hasPasswordHash = false ∧
        (check_users_table_schema G s).needsMigration = true) ∧
    ((initialize_database gProbeFail [] true true fresh0).1 =
      ["DROP TABLE users", usersCreateSql]) := by
  refine ⟨?_, ?_, ?_⟩
  · intro σ G s e hex hq
    unfold check_users_table_schema
    simp only [hex, Bool.not_true, Bool.false_eq_true, if_false, hq, ite_self]
    constructor <;> trivial
  · intro σ G s e hex hq
    unfold check_users_table_schema
    simp only [hex, Bool.not_true, Bool.false_eq_true, if_false, hq, ite_self,
      Bool.and_false, Bool.not_false]
    constructor <;> trivial
  · decide

/-- C9 witness: the flags at the concrete `gProbeFail` store, whose email
probe fails with `connection refused`, and at `gProbeFail2`, whose
password_hash probe fails with `request timeout` while the email probe
succeeds — both texts naming no column. -/
theorem probe_failure_forces_migration_witness :
    ((check_users_table_schema gProbeFail []).hasEmail = false ∧
      (check_users_table_schema gProbeFail []).needsMigration = true) ∧
    ((check_users_table_schema gProbeFail2 ()).hasPasswordHash = false ∧
      (check_users_table_schema gProbeFail2 ()).needsMigration = true) :=
  ⟨probe_failure_forces_migration.1 gProbeFail [] "connection refused" (by decide) (by rfl),
   probe_failure_forces_migration.2.1 gProbeFail2 () "request timeout" (by decide) (by rfl)⟩

/-! ## C6: re-initialization on a fully initialized store is idempotent -/

/-- C6: on any store state where all seven tables exist, the users schema
needs no migration, and both reference counts are positive (the state a
successful first initialization leaves behind), a second `initialize_database`
reports 0 tables created, 7 skipped and 0 categories seeded, and returns the
store state unchanged — no statement is executed at all, so in particular no
duplicate reference rows are inserted. -/
theorem reinit_idempotent {σ : Type} (G : Gateway σ) (s : σ) (fresh : FreshUser)
    (c u : Int)
    (hm : (check_users_table_schema G s).needsMigration = false)
    (h1 : table_exists G s "users" = true)
    (h2 : table_exists G s "categories" = true)
    (h3 : table_exists G s "transactions" = true)
    (h4 : table_exists G s "budgets" = true)
    (h5 : table_exists G s "sms_import_logs" = true)
    (h6 : table_exists G s "duplicate_logs" = true)
    (h7 : table_exists G s "status_checks" = true)
    (hc : count_rows_safe "categories" "" (G.query s) = .ok c) (hcpos : 0 < c)
    (hu : count_rows_safe "users" "" (G.query s) = .ok u) (hupos : 0 < u) :
    initialize_database G s true true fresh =
      (s, { success := true, databaseCreated := true, tablesCreated := 0,
            tablesSkipped := 7, categoriesSeeded := 0, userCreated := false,
            verified := true, migrated := false,
            message := "Database initialized successfully", errors := [],
            userId := none }) := by
  have hct : create_tables G s = (s, 0, 7, []) := by
    unfold create_tables create_tables_inline tableStatements
    simp only [List.foldl_cons, List.foldl_nil, createTableStep, h1, h2, h3, h4, h5,
      h6, h7, if_true]
  have hver : verify_database G s = true := by
    simp [verify_database, requiredTables, h1, h2, h3, h4, h5, h6, h7]
  have hseed : seed_default_categories G s = (s, 0) := by
    unfold seed_default_categories
    rw [hc]
    simp [hcpos]
  have huser : create_default_user G s fresh =
      (s, { created := false, message := "User already exists", userId := none }) := by
    unfold create_default_user get_user_count
    rw [hu]
    simp [hupos]
  unfold initialize_database
  simp only [hm, Bool.false_eq_true, if_false, Bool.false_and, hct, hver, if_true]
  unfold initFinish
  simp only [hseed, huser, if_true]
  rfl

/-- C6 witness: the fully initialized `gInitialized` store with an empty
execution trace — the second run reports (created, skipped, seeded) =
(0, 7, 0) and executes nothing. -/
theorem reinit_idempotent_witness :
    initialize_database gInitialized [] true true fresh0 =
      ([], { success := true, databaseCreated := true, tablesCreated := 0,
             tablesSkipped := 7, categoriesSeeded := 0, userCreated := false,
             verified := true, migrated := false,
             message := "Database initialized successfully", errors := [],
             userId := none }) := by
  exact reinit_idempotent gInitialized [] fresh0 12 1 (by decide) (by decide) (by decide)
    (by decide) (by decide) (by decide) (by decide) (by decide) (by rfl) (by decide)
    (by rfl) (by decide)

end Pesa
